import Mathlib

/-!
Verification of the llm-ensemble orchestration layer: a scatter-gather
executor (`RunLLM` in run_llm.py) that fans one query out to several model
agents and aggregates their answers, and a budgeted supervisor (`Consensus`
in consensus.py) that repeatedly invokes the ensemble and degrades to a
default result on failure.  Model agents, the judge model and the external
middleware are external collaborators; they enter the embedding as explicit
parameters (outcome functions, run outcomes) or, where the spec is the only
description, as definitions marked `Modelled from the spec`.
-/

namespace LLMEnsemble

/-! ## utils/utils.py: the four arithmetic tools

Python floats are modelled as rationals: the control flow of each tool
(the zero test in `divide`, the absence of any raise in the others) does
not depend on rounding, and `-0.0 == 0` holds in both models.  A raise is
an `Except.error` carrying the exception message. -/

def add (a b : ℚ) : Except String ℚ :=
  Except.ok (a + b)

def subtract (a b : ℚ) : Except String ℚ :=
  Except.ok (a - b)

def multiply (a b : ℚ) : Except String ℚ :=
  Except.ok (a * b)

def divide (a b : ℚ) : Except String ℚ :=
  if b = 0 then Except.error "Cannot divide by zero"
  else Except.ok (a / b)

/-! ## run_llm.py: content shapes and text extraction

A model agent returns a final message whose `content` is either a plain
string (OpenAI/Anthropic) or a list of content blocks (Gemini).  A block
either supports mapping access (`.get`) with an optional text field, or it
is an object without `.get`, on which attribute access raises.  `blocksRepr`
carries the Python `str(content)` rendering of the whole list, used as the
fallback value. -/

inductive ContentItem where
  | withGet (text : Option String) : ContentItem
  | noGet (objRepr : String) : ContentItem
deriving DecidableEq, Repr

inductive Content where
  | text (s : String) : Content
  | blocks (items : List ContentItem) (blocksRepr : String) : Content
deriving DecidableEq, Repr

/-- Translation of the content-normalization branch of `make_model_node`
(run_llm.py lines 84-89).  An empty block list fails the
`len(content) > 0` test, so the raw list flows through and is later
stringified by the f-string in `process_node`; the embedding records that
final rendering directly. -/
def extractText : Content → Except String String
  | Content.text s => Except.ok s
  | Content.blocks [] r => Except.ok r
  | Content.blocks (ContentItem.withGet (some t) :: _) _ => Except.ok t
  | Content.blocks (ContentItem.withGet none :: _) r => Except.ok r
  | Content.blocks (ContentItem.noGet _ :: _) _ =>
      Except.error "AttributeError: object has no attribute get"

/-! ## run_llm.py: the scatter-gather graph

Each model node invokes its agent and, on success, writes
`(model_name, output_text)` into the shared `model_outputs` dict; the
`or_` reducer applies the parallel writes one after another in completion
order, later writes overriding earlier ones.  The dict is modelled as a
lookup function and a completion order as the list of model names in the
order their writes land. -/

/-- One agent invocation: the external agent either raises or returns a
final message content; the node then runs the extraction step on it. -/
def runNode (outcome : Except String Content) : Except String String :=
  outcome.bind extractText

/-- The `model_outputs` dict after the writes of `order` have been applied
in that order, where model `m` writes the value `results m`. -/
def buildOutputs (order : List String) (results : String → String) :
    String → Option String :=
  order.foldl (fun d m => fun k => if k = m then some (results m) else d k)
    (fun _ => none)

/-- Translation of the aggregation loop body of `process_node`
(run_llm.py lines 109-112): one labeled entry is appended per configured
model name, in configured-list order, with `.get(model_name, "")`
supplying the empty string for a missing key. -/
def aggEntries (models : List String) (outputs : String → Option String) :
    List String :=
  models.foldl (fun acc m => acc ++ [m ++ ":\n" ++ (outputs m).getD ""]) []

/-- Translation of `process_node` (run_llm.py lines 107-115):
`"\n\n".join(outputs)`. -/
def process_node (models : List String) (outputs : String → Option String) :
    String :=
  String.intercalate "\n\n" (aggEntries models outputs)

/-- The compiled graph run on one prompt, given the per-model agent
outcomes and the completion order of the parallel nodes.  A node whose
agent invocation or extraction raises fails the whole graph invocation;
which sibling exception surfaces is scheduler dependent and is modelled
as the first failing model in configured order. -/
def graphInvoke (models : List String) (order : List String)
    (outcomes : String → Except String Content) : Except String String :=
  match models.findSome? (fun m =>
      match runNode (outcomes m) with
      | Except.error e => some e
      | Except.ok _ => none) with
  | some e => Except.error e
  | none =>
      Except.ok (process_node models
        (buildOutputs order (fun m => ((runNode (outcomes m)).toOption.getD ""))))

/-! ## consensus.py: construction-time validation and configuration -/

/-- Translation of the argument checks at the top of `Consensus.__init__`
(consensus.py lines 46-49): first `if not models`, then `if len(models) < 2`,
each raising a `ValueError`. -/
def validateModels (models : List String) : Except String Unit :=
  if models.isEmpty then Except.error "models list cannot be empty"
  else if models.length < 2 then
    Except.error "models list must contain at least 2 models for consensus"
  else Except.ok ()

/-- The configuration assembled by `Consensus.__init__` once validation has
passed, with the default arguments of the signature (consensus.py
lines 18-27) and the `ToolCallLimitMiddleware` arguments (lines 74-78). -/
structure ConsensusConfig where
  models : List String
  judge_model : String := "anthropic:claude-opus-4-5-20251101"
  run_limit : Nat := 20
  limit_tool_name : String := "run_llms"
  limit_exit_behavior : String := "error"
deriving DecidableEq, Repr

/-- Translation of `Consensus.__init__` up to the point where external collaborators
(prompt file, judge model, middleware, agent) are assembled: validation
runs first, and no model invocation happens during construction — the
`run_llms` tool body, the only place a `RunLLM` is built and invoked, runs
only when the supervisor later calls the tool. -/
def consensusInit (models : List String) (run_limit : Nat := 20) :
    Except String ConsensusConfig :=
  (validateModels models).map (fun _ =>
    { models := models, run_limit := run_limit })

/-! ## consensus.py: schema-driven default result on failure

A configured response schema is reflected over as its `__annotations__`:
an ordered association of field names to declared types, coarsened to the
three kinds the default policy distinguishes. -/

inductive FieldType where
  | bool : FieldType
  | str : FieldType
  | other : FieldType
deriving DecidableEq, Repr

inductive FieldValue where
  | b (v : Bool) : FieldValue
  | s (v : String) : FieldValue
  | pyNone : FieldValue
deriving DecidableEq, Repr

/-- Translation of the per-field default policy in the `except` branch of
`Consensus.invoke` (consensus.py lines 154-162): the name test for
`consensus` / `consensus_reached` runs before the type tests, and any type
other than bool or str defaults to Python `None`.  `e` is `str(e)` for the
caught exception. -/
def defaultField (e : String) (key : String) (t : FieldType) : FieldValue :=
  if key = "consensus" ∨ key = "consensus_reached" then FieldValue.b false
  else match t with
    | FieldType.bool => FieldValue.b false
    | FieldType.str => FieldValue.s ("Error occurred: " ++ e)
    | FieldType.other => FieldValue.pyNone

/-- The `default_dict` built by iterating over the schema annotations in
order (consensus.py lines 152-162). -/
def defaultDict (schema : List (String × FieldType)) (e : String) :
    List (String × FieldValue) :=
  schema.map (fun p => (p.1, defaultField e p.1 p.2))

/-- Translation of `return default_dict if default_dict else None`
(consensus.py line 163): an empty dict is falsy, so a schema with no
annotated fields yields `None` instead of an empty record. -/
def errorResult (schema : List (String × FieldType)) (e : String) :
    Option (List (String × FieldValue)) :=
  if (defaultDict schema e).isEmpty then none else some (defaultDict schema e)

/-! ## consensus.py: the outermost invoke boundary -/

/-- Payload of a successful supervisor run: the structured response
extracted when a schema is configured, and the full agent result
otherwise (modelled opaquely as its final rendering). -/
structure AgentSuccess where
  structured_response : List (String × FieldValue)
  full : String
deriving DecidableEq, Repr

/-- A `FinalResult` as seen by the caller of `Consensus.invoke`: a
structured record or the full untyped agent result; the explicit
no-answer marker `None` is `Option.none` at the call site. -/
inductive FinalResult where
  | structured (fields : List (String × FieldValue)) : FinalResult
  | raw (result : String) : FinalResult
deriving DecidableEq, Repr

/-- Translation of `Consensus.invoke` (consensus.py lines 138-165): the
supervisor run is an external collaborator whose outcome is either a
success payload or a raised exception; the `try`/`except Exception`
boundary turns every exception into the default path, so the function is
total and never propagates an error. -/
def Consensus.invoke (schema : Option (List (String × FieldType)))
    (run : Except String AgentSuccess) : Option FinalResult :=
  match run with
  | Except.ok r =>
      match schema with
      | some _ => some (FinalResult.structured r.structured_response)
      | none => some (FinalResult.raw r.full)
  | Except.error e =>
      match schema with
      | some s => (errorResult s e).map FinalResult.structured
      | none => none

/-! ## Budget guard

Modelled from the spec: the call ceiling is enforced by
`ToolCallLimitMiddleware(tool_name="run_llms", run_limit=run_limit,
exit_behavior="error")` (consensus.py lines 74-78), whose implementation is
external library code not under src/.  Spec section 4.4: the guard is
consulted before each Ensemble Tool invocation from a single logical
decision point; a permitted call decrements the remaining budget by one;
a call attempted with no remaining budget is refused with a distinguishable
BudgetExceeded condition that aborts the run. -/

inductive GuardDecision where
  | permit (callsMade : Nat) : GuardDecision
  | budgetExceeded : GuardDecision
deriving DecidableEq, Repr

/-- Modelled from the spec: one consultation of the Budget Guard, given the
ceiling and the number of calls already permitted in this run. -/
def guardCheck (run_limit : Nat) (callsMade : Nat) : GuardDecision :=
  if callsMade < run_limit then GuardDecision.permit (callsMade + 1)
  else GuardDecision.budgetExceeded

/-- Modelled from the spec: the number of Ensemble Tool invocations the
guard has permitted after `n` attempts in one supervisor run. -/
def permittedAfter (run_limit : Nat) : Nat → Nat
  | 0 => 0
  | n + 1 =>
      match guardCheck run_limit (permittedAfter run_limit n) with
      | GuardDecision.permit c => c
      | GuardDecision.budgetExceeded => permittedAfter run_limit n

/-! ## Context compactor

Modelled from the spec: compaction is performed by
`SummarizationMiddleware(model=..., trigger=("tokens", trigger_tokens),
keep=("messages", keep_messages))` (consensus.py lines 69-73), whose
implementation is external library code not under src/.  Spec section 4.3:
when the transcript size exceeds a configured threshold, all turns except
the most recent K are replaced by a single synthesized summary turn, and
the original user question and the most recent K turns are never dropped.
The cost metric is implementation defined; the model takes it to be the
turn count. -/

structure CompactorConfig where
  threshold : Nat
  keep : Nat
deriving DecidableEq, Repr

/-- Modelled from the spec: the implementation-defined transcript cost
metric, taken as the number of turns. -/
def transcriptSize (t : List String) : Nat := t.length

/-- Modelled from the spec: the condensed summary turn synthesized by the
secondary summarization call over the replaced turns. -/
def summarize (dropped : List String) : String :=
  "summary of " ++ String.intercalate "; " dropped

/-- Modelled from the spec: one compaction pass — if the size exceeds the
threshold, keep the original user question (the first turn), replace the
middle with one summary turn, and keep the most recent K turns verbatim;
otherwise leave the transcript unchanged. -/
def compact (cfg : CompactorConfig) (t : List String) : List String :=
  if transcriptSize t > cfg.threshold then
    match t with
    | [] => []
    | q :: rest =>
        q :: summarize (rest.take (rest.length - cfg.keep)) ::
          t.drop (t.length - cfg.keep)
  else t

/-! ## Helper lemmas -/

theorem foldl_append_eq_map {α β : Type} (f : α → β) (l : List α) :
    ∀ acc : List β, l.foldl (fun acc m => acc ++ [f m]) acc = acc ++ l.map f := by
  induction l with
  | nil => intro acc; simp
  | cons m rest ih =>
      intro acc
      simp only [List.foldl_cons, List.map_cons]
      rw [ih]
      simp

theorem aggEntries_eq_map (models : List String) (outputs : String → Option String) :
    aggEntries models outputs
      = models.map (fun m => m ++ ":\n" ++ (outputs m).getD "") := by
  unfold aggEntries
  rw [foldl_append_eq_map]
  simp

theorem buildOutputs_foldl (g : String → String) (order : List String) :
    ∀ (d : String → Option String) (k : String),
      (order.foldl (fun d m => fun k => if k = m then some (g m) else d k) d) k
        = if k ∈ order then some (g k) else d k := by
  induction order with
  | nil => intro d k; simp
  | cons m rest ih =>
      intro d k
      simp only [List.foldl_cons]
      rw [ih]
      by_cases hk : k ∈ rest
      · simp [hk]
      · by_cases hkm : k = m
        · subst hkm; simp [hk]
        · simp [hk, hkm]

theorem buildOutputs_get (order : List String) (g : String → String) (k : String) :
    buildOutputs order g k = if k ∈ order then some (g k) else none :=
  buildOutputs_foldl g order (fun _ => none) k

theorem process_node_of_superset (models order : List String) (g : String → String)
    (h : ∀ m ∈ models, m ∈ order) :
    process_node models (buildOutputs order g)
      = String.intercalate "\n\n" (models.map (fun m => m ++ ":\n" ++ g m)) := by
  unfold process_node
  rw [aggEntries_eq_map]
  congr 1
  apply List.map_congr_left
  intro m hm
  rw [buildOutputs_get, if_pos (h m hm)]
  rfl

theorem compact_no_trigger (cfg : CompactorConfig) (t : List String)
    (h : transcriptSize t ≤ cfg.threshold) : compact cfg t = t := by
  unfold compact
  rw [if_neg (by omega)]

/-! ## Claim theorems -/

/-- C10: for all inputs, the divide tool raises a ValueError exactly when
the divisor equals 0 and otherwise returns the quotient a / b; the add,
subtract and multiply tools never raise. -/
theorem tools_raise_behavior (a b : ℚ) :
    add a b = Except.ok (a + b) ∧
    subtract a b = Except.ok (a - b) ∧
    multiply a b = Except.ok (a * b) ∧
    ((∃ e, divide a b = Except.error e) ↔ b = 0) ∧
    (b = 0 ∨ divide a b = Except.ok (a / b)) := by
  refine ⟨rfl, rfl, rfl, ?_, ?_⟩ <;> by_cases hb : b = 0 <;> simp [divide, hb]

/-- C8 counterexample: a content list whose first item does not support
mapping access makes the extraction step raise an AttributeError instead
of falling back to a stringified representation. -/
theorem extract_throws_on_nonmapping_item :
    extractText (Content.blocks [ContentItem.noGet "ToolUseBlock"] "[ToolUseBlock]")
      = Except.error "AttributeError: object has no attribute get" := rfl

/-- C8 amended: the extraction step raises precisely when the content is a
nonempty block list whose first item lacks mapping access; plain strings,
empty lists, and lists headed by a mapping item (with or without a text
field) never raise. -/
theorem extract_error_characterization (c : Content) :
    (∃ e, extractText c = Except.error e) ↔
      ∃ rep items r, c = Content.blocks (ContentItem.noGet rep :: items) r := by
  cases c with
  | text s => simp [extractText]
  | blocks items r =>
      cases items with
      | nil => simp [extractText]
      | cons i rest =>
          cases i with
          | withGet t => cases t <;> simp [extractText]
          | noGet rep => simp [extractText]

/-- C5 counterexample: a two-element list with equal identifiers has fewer
than 2 distinct entries, yet construction-time validation accepts it and
`Consensus.__init__` completes without a ConfigurationError. -/
theorem duplicate_models_pass_construction :
    validateModels ["m", "m"] = Except.ok () ∧
    consensusInit ["m", "m"] = Except.ok { models := ["m", "m"] } := by
  constructor <;> rfl

/-- C5 amended: constructing the ensemble fails with a ValueError exactly
when the identifier list has fewer than 2 entries, before any model
invocation; a list of 2 or more entries passes construction-time
validation even when its entries are not distinct. -/
theorem construction_fails_iff_fewer_than_two (models : List String) (run_limit : Nat) :
    ((∃ e, consensusInit models run_limit = Except.error e) ↔ models.length < 2) ∧
    (models.length < 2 ∨
      consensusInit models run_limit
        = Except.ok { models := models, run_limit := run_limit }) := by
  rcases models with _ | ⟨m, rest⟩
  · simp [consensusInit, validateModels, Except.map]
  · rcases rest with _ | ⟨m2, rest2⟩
    · simp [consensusInit, validateModels, Except.map]
    · have h2 : ¬ rest2.length + 1 + 1 < 2 := by omega
      simp [consensusInit, validateModels, Except.map, h2]

/-- C7 counterexample: with a configured schema that has no annotated
fields, a failing run is converted to the no-answer marker None instead of
a default FinalResult record with the schema key set. -/
theorem invoke_none_on_empty_schema_failure :
    Consensus.invoke (some []) (Except.error "Tool call limit reached") = none := rfl

/-- C7 amended: invoke never propagates an exception: a successful run
yields the structured response when a schema is configured and the full
result otherwise, and a failing run yields the schema-derived default
record when the configured schema has at least one field and the explicit
no-answer marker None when no schema is configured or the schema has no
fields. -/
theorem invoke_total_characterization (schema : List (String × FieldType))
    (e : String) (r : AgentSuccess) :
    Consensus.invoke (some schema) (Except.ok r)
        = some (FinalResult.structured r.structured_response) ∧
    Consensus.invoke none (Except.ok r) = some (FinalResult.raw r.full) ∧
    Consensus.invoke none (Except.error e) = none ∧
    Consensus.invoke (some schema) (Except.error e)
        = (if schema.isEmpty then none
           else some (FinalResult.structured (defaultDict schema e))) := by
  refine ⟨rfl, rfl, rfl, ?_⟩
  cases schema with
  | nil => rfl
  | cons p rest => rfl

/-- C6 counterexample: a string field named consensus receives the boolean
false instead of an explanatory message, because the name test runs before
the type test in the default policy. -/
theorem consensus_string_field_gets_false :
    errorResult [("consensus", FieldType.str)] "Tool call limit reached"
      = some [("consensus", FieldValue.b false)] := rfl

/-- C6 amended: for a configured schema with at least one field, the
failure-path record has exactly the schema key set in schema order;
fields named consensus or consensus_reached are false regardless of
declared type, other boolean fields are false, other string fields carry
a message naming the failure, and every remaining field holds the None
sentinel. -/
theorem default_result_policy (schema : List (String × FieldType)) (e : String)
    (h : schema ≠ []) :
    ∃ d, errorResult schema e = some d
      ∧ d.map Prod.fst = schema.map Prod.fst
      ∧ ∀ k t, (k, t) ∈ schema →
          ((k = "consensus" ∨ k = "consensus_reached") → (k, FieldValue.b false) ∈ d)
          ∧ (t = FieldType.bool → (k, FieldValue.b false) ∈ d)
          ∧ (t = FieldType.str → ¬(k = "consensus" ∨ k = "consensus_reached") →
               (k, FieldValue.s ("Error occurred: " ++ e)) ∈ d)
          ∧ (t = FieldType.other → ¬(k = "consensus" ∨ k = "consensus_reached") →
               (k, FieldValue.pyNone) ∈ d) := by
  refine ⟨defaultDict schema e, ?_, ?_, ?_⟩
  · unfold errorResult
    have hne : (defaultDict schema e).isEmpty = false := by
      cases schema with
      | nil => exact absurd rfl h
      | cons p rest => rfl
    rw [hne]
    rfl
  · unfold defaultDict
    simp
  · intro k t hkt
    have hmem : (k, defaultField e k t) ∈ defaultDict schema e :=
      List.mem_map.mpr ⟨(k, t), hkt, rfl⟩
    refine ⟨?_, ?_, ?_, ?_⟩
    · intro hname
      unfold defaultField at hmem
      rw [if_pos hname] at hmem
      exact hmem
    · intro ht
      subst ht
      unfold defaultField at hmem
      by_cases hname : k = "consensus" ∨ k = "consensus_reached"
      · rw [if_pos hname] at hmem; exact hmem
      · rw [if_neg hname] at hmem; exact hmem
    · intro ht hname
      subst ht
      unfold defaultField at hmem
      rw [if_neg hname] at hmem
      exact hmem
    · intro ht hname
      subst ht
      unfold defaultField at hmem
      rw [if_neg hname] at hmem
      exact hmem

/-- The response schema used by the repository test `test_schema` in
tests/test_consensus.py, coarsened to field kinds. -/
def userSchema : List (String × FieldType) :=
  [("consensus", FieldType.bool), ("final_answer", FieldType.str),
   ("notes", FieldType.str)]

/-- Witness for the amended C6 policy at the response schema of the
repository tests. -/
theorem default_result_policy_witness :
    ∃ d, errorResult userSchema "Tool call limit exceeded" = some d
      ∧ d.map Prod.fst = userSchema.map Prod.fst
      ∧ ∀ k t, (k, t) ∈ userSchema →
          ((k = "consensus" ∨ k = "consensus_reached") → (k, FieldValue.b false) ∈ d)
          ∧ (t = FieldType.bool → (k, FieldValue.b false) ∈ d)
          ∧ (t = FieldType.str → ¬(k = "consensus" ∨ k = "consensus_reached") →
               (k, FieldValue.s ("Error occurred: " ++ "Tool call limit exceeded")) ∈ d)
          ∧ (t = FieldType.other → ¬(k = "consensus" ∨ k = "consensus_reached") →
               (k, FieldValue.pyNone) ∈ d) :=
  default_result_policy userSchema "Tool call limit exceeded" (by decide)

/-- C1: for a fixed configured model list and a fixed assignment of
per-model outcomes, the graph invocation — in particular the aggregated
text produced by the merge step — is byte-identical for any two completion
orders of the parallel model nodes; the merge order is a function of the
configured identifier list alone. -/
theorem aggregation_completion_order_independent (models : List String)
    (outcomes : String → Except String Content) (order₁ order₂ : List String)
    (h₁ : order₁.Perm models) (h₂ : order₂.Perm models) :
    graphInvoke models order₁ outcomes = graphInvoke models order₂ outcomes := by
  unfold graphInvoke
  cases hf : models.findSome? (fun m =>
      match runNode (outcomes m) with
      | Except.error e => some e
      | Except.ok _ => none) with
  | some e => rfl
  | none =>
      have hg := fun (order : List String) (hp : order.Perm models) =>
        process_node_of_superset models order
          (fun m => (runNode (outcomes m)).toOption.getD "")
          (fun m hm => hp.mem_iff.mpr hm)
      rw [hg order₁ h₁, hg order₂ h₂]

/-- A concrete all-success outcome assignment used to witness C1. -/
def demoOutcomes : String → Except String Content :=
  fun m => Except.ok (Content.text ("answer from " ++ m))

/-- Witness for C1 at a concrete model list evaluated under two different
completion orders. -/
theorem aggregation_order_witness :
    graphInvoke ["openai:gpt-5-mini", "xai:grok-3-mini"]
        ["xai:grok-3-mini", "openai:gpt-5-mini"] demoOutcomes
      = graphInvoke ["openai:gpt-5-mini", "xai:grok-3-mini"]
        ["openai:gpt-5-mini", "xai:grok-3-mini"] demoOutcomes :=
  aggregation_completion_order_independent ["openai:gpt-5-mini", "xai:grok-3-mini"]
    demoOutcomes _ _
    (List.Perm.swap "openai:gpt-5-mini" "xai:grok-3-mini" [])
    (List.Perm.refl _)

/-- C2: the aggregated result is the ordered concatenation of exactly one
entry per configured identifier, in configured-list order, each entry
labeled verbatim with its identifier followed by the stored output (the
empty string when the identifier is absent from the outputs dict). -/
theorem aggregated_entries_labeled_in_config_order (models : List String)
    (outputs : String → Option String) :
    aggEntries models outputs
      = models.map (fun m => m ++ ":\n" ++ (outputs m).getD "") ∧
    process_node models outputs
      = String.intercalate "\n\n"
          (models.map (fun m => m ++ ":\n" ++ (outputs m).getD "")) := by
  refine ⟨aggEntries_eq_map models outputs, ?_⟩
  unfold process_node
  rw [aggEntries_eq_map]

/-- A concrete outcome assignment in which exactly one model raises,
used for C3. -/
def oneFailureOutcomes : String → Except String Content :=
  fun m =>
    if m = "openai:gpt-5-mini" then Except.error "provider timeout"
    else Except.ok (Content.text "4")

/-- C3 counterexample: with two configured models of which exactly one
raises, the graph invocation itself raises instead of returning an
aggregated result containing a placeholder entry for the failed model. -/
theorem single_failure_raises :
    oneFailureOutcomes "openai:gpt-5-mini" = Except.error "provider timeout" ∧
    graphInvoke ["openai:gpt-5-mini", "anthropic:claude-3-5-haiku-20241022"]
        ["anthropic:claude-3-5-haiku-20241022"] oneFailureOutcomes
      = Except.error "provider timeout" := by
  constructor <;> rfl

/-- C3 amended: per-invocation failure is not captured as a placeholder
outcome: whenever some configured model invocation raises (or its content
extraction raises), the exception propagates out of the run and no
aggregated result is produced. -/
theorem failure_propagates_out_of_run (models order : List String)
    (outcomes : String → Except String Content)
    (h : ∃ m ∈ models, ∃ e, runNode (outcomes m) = Except.error e) :
    ∃ e, graphInvoke models order outcomes = Except.error e := by
  obtain ⟨m, hm, e, he⟩ := h
  unfold graphInvoke
  cases hf : models.findSome? (fun m =>
      match runNode (outcomes m) with
      | Except.error e => some e
      | Except.ok _ => none) with
  | some e2 => exact ⟨e2, rfl⟩
  | none =>
      rw [List.findSome?_eq_none_iff] at hf
      have hx := hf m hm
      rw [he] at hx
      simp at hx

/-- Witness for the amended C3 at a concrete failing ensemble. -/
theorem failure_propagates_witness :
    ∃ e, graphInvoke ["openai:gpt-5-mini", "xai:grok-3-mini"]
        ["xai:grok-3-mini"] oneFailureOutcomes = Except.error e :=
  failure_propagates_out_of_run _ _ oneFailureOutcomes
    ⟨"openai:gpt-5-mini", List.mem_cons_self _ _, "provider timeout", rfl⟩

theorem permittedAfter_eq_min (run_limit : Nat) :
    ∀ n : Nat, permittedAfter run_limit n = min n run_limit := by
  intro n
  induction n with
  | zero => simp [permittedAfter]
  | succ k ih =>
      have hstep : permittedAfter run_limit (k + 1)
          = match guardCheck run_limit (permittedAfter run_limit k) with
            | GuardDecision.permit c => c
            | GuardDecision.budgetExceeded => permittedAfter run_limit k := rfl
      rw [hstep, ih]
      unfold guardCheck
      by_cases h : min k run_limit < run_limit
      · rw [if_pos h]
        show min k run_limit + 1 = min (k + 1) run_limit
        omega
      · rw [if_neg h]
        show min k run_limit = min (k + 1) run_limit
        omega

/-- C4: the budget guard never permits more than run_limit ensemble tool
invocations in one supervisor run, refuses the attempt after the
run_limit-th with the distinguishable budgetExceeded decision before any
dispatch, and the repository configuration defaults the ceiling to 20 with
the error exit behavior rather than a silent no-op. -/
theorem budget_guard_ceiling (run_limit n : Nat) :
    permittedAfter run_limit n = min n run_limit ∧
    permittedAfter run_limit n ≤ run_limit ∧
    guardCheck run_limit (permittedAfter run_limit run_limit)
      = GuardDecision.budgetExceeded ∧
    (∀ c, GuardDecision.budgetExceeded ≠ GuardDecision.permit c) ∧
    ({ models := ["m1", "m2"] } : ConsensusConfig).run_limit = 20 ∧
    ({ models := ["m1", "m2"] } : ConsensusConfig).limit_exit_behavior = "error" := by
  refine ⟨permittedAfter_eq_min run_limit n, ?_, ?_, ?_, rfl, rfl⟩
  · rw [permittedAfter_eq_min]
    omega
  · rw [permittedAfter_eq_min]
    unfold guardCheck
    rw [if_neg (by omega)]
  · intro c hc
    exact GuardDecision.noConfusion hc

/-- C9: when the transcript size exceeds the threshold and the
configuration leaves room for the question and summary turns within the
threshold, compaction keeps the original first user turn and the most
recent keep turns unchanged, brings the size to at most the threshold,
and a second compaction with no new turns added changes nothing. -/
theorem compaction_preserves_and_idempotent (cfg : CompactorConfig)
    (t : List String) (hsz : transcriptSize t > cfg.threshold)
    (hk : cfg.keep + 2 ≤ cfg.threshold) :
    (compact cfg t).head? = t.head? ∧
    (compact cfg t).drop ((compact cfg t).length - cfg.keep)
      = t.drop (t.length - cfg.keep) ∧
    transcriptSize (compact cfg t) ≤ cfg.threshold ∧
    compact cfg (compact cfg t) = compact cfg t := by
  have hlen : cfg.keep + 2 < t.length := by
    unfold transcriptSize at hsz
    omega
  cases t with
  | nil => simp at hlen
  | cons q rest =>
      have hc : compact cfg (q :: rest)
          = q :: summarize (rest.take (rest.length - cfg.keep)) ::
              (q :: rest).drop ((q :: rest).length - cfg.keep) := by
        unfold compact
        rw [if_pos hsz]
      have hclen : (compact cfg (q :: rest)).length = cfg.keep + 2 := by
        rw [hc]
        simp only [List.length_cons, List.length_drop] at hlen ⊢
        omega
      have hsize : transcriptSize (compact cfg (q :: rest)) ≤ cfg.threshold := by
        unfold transcriptSize
        rw [hclen]
        exact hk
      refine ⟨?_, ?_, hsize, compact_no_trigger cfg _ hsize⟩
      · rw [hc]
        rfl
      · rw [hclen, hc]
        have h2 : cfg.keep + 2 - cfg.keep = 2 := by omega
        rw [h2]
        rfl

/-- A concrete supervisor transcript used to witness C9. -/
def demoTranscript : List String := ["q", "a1", "a2", "a3", "a4", "a5"]

/-- Witness for C9 at a concrete transcript, threshold 5 and keep 2. -/
theorem compaction_witness :
    (compact ⟨5, 2⟩ demoTranscript).head? = demoTranscript.head? ∧
    (compact ⟨5, 2⟩ demoTranscript).drop
        ((compact ⟨5, 2⟩ demoTranscript).length - 2)
      = demoTranscript.drop (demoTranscript.length - 2) ∧
    transcriptSize (compact ⟨5, 2⟩ demoTranscript) ≤ 5 ∧
    compact ⟨5, 2⟩ (compact ⟨5, 2⟩ demoTranscript)
      = compact ⟨5, 2⟩ demoTranscript :=
  compaction_preserves_and_idempotent ⟨5, 2⟩ demoTranscript (by decide) (by decide)

end LLMEnsemble
